import Mathlib

/-!
Verification of the `MaterialTypeAssetCreator` builder/validator from
`Gems/Atom/RPI/Code/Include/Atom/RPI.Reflect/Material/MaterialTypeAssetCreator.h`.

The repository slice contains only the interface header; every operation body
is therefore modelled from the specification of the component (its staged
state machine, per-operation contracts and error taxonomy), as noted on each
definition.
-/

/-- Names (AZ::Name) are modelled as strings. -/
abbrev Name := String

/-- The sentinel material-pipeline name meaning "applies to all pipelines". -/
def MaterialPipelineNameCommon : Name := "Common"

/-- Modelled from the spec: the structural description of a shader's
per-material resource-binding group (`RHI::ShaderResourceGroupLayout`), an
opaque already-validated object that the core only compares by structural
equality. It is modelled as its list of named input fields. -/
structure ShaderResourceGroupLayout where
  inputs : List Name
deriving DecidableEq

/-- Modelled from the spec: a shader asset is opaque and queried only for its
per-material resource-binding layout (already fetched at the fixed material
binding slot, which `CacheMaterialSrgLayout` uses) and for its declared shader
option names. A shader that exposes no per-material binding group has
`materialSrgLayout = none`. -/
structure ShaderAsset where
  materialSrgLayout : Option ShaderResourceGroupLayout
  shaderOptions : List Name
deriving DecidableEq

/-- One entry of the shader collection accumulated by `AddShader`. -/
structure ShaderEntry where
  shaderAsset : ShaderAsset
  shaderVariantId : Nat
  shaderTag : Name
  materialPipelineName : Name
deriving DecidableEq

/-- The fixed set of data types a material property can declare
(`MaterialPropertyDataType`). -/
inductive MaterialPropertyDataType
  | boolType
  | intType
  | floatType
  | vectorType
  | colorType
  | imageType
  | enumType
deriving DecidableEq

/-- Modelled from the spec: property values are opaque literals whose only
relevant attribute is their kind, which must match the declared data type.
Floats are out of scope at bit level and are represented as integer pairs;
the three image-asset overloads of `SetPropertyValue` all store through the
single opaque image representation. -/
inductive MaterialPropertyValue
  | boolValue (b : Bool)
  | intValue (i : Int)
  | floatValue (numerator : Int) (denominator : Nat)
  | vectorValue (components : List Int)
  | colorValue (r g b a : Nat)
  | imageValue (imageAssetId : Nat)
  | enumValue (index : Nat)
deriving DecidableEq

/-- The kind of a property value, compared against the declared data type. -/
def kindOf : MaterialPropertyValue → MaterialPropertyDataType
  | .boolValue _ => .boolType
  | .intValue _ => .intType
  | .floatValue _ _ => .floatType
  | .vectorValue _ => .vectorType
  | .colorValue _ _ _ _ => .colorType
  | .imageValue _ => .imageType
  | .enumValue _ => .enumType

/-- An output mapping attached to a material property while its session is
open: to a named shader input slot, to a named shader option of a shader that
declares it (identified by the shader's tag), or to the enabled toggle of a
specific shader. -/
inductive MaterialPropertyOutput
  | shaderInput (inputName : Name)
  | shaderOption (optionName : Name) (shaderTag : Name)
  | shaderEnabled (shaderTag : Name)
deriving DecidableEq

/-- A material property descriptor: name, declared data type, optional
enum-name list (meaningful only for the enum kind) and the accumulated output
mappings (`MaterialPropertyDescriptor`). -/
structure MaterialPropertyDescriptor where
  name : Name
  dataType : MaterialPropertyDataType
  enumNames : List String
  outputConnections : List MaterialPropertyOutput
deriving DecidableEq

/-- Modelled from the spec: the four macro-states of the Creator state
machine. The in-progress property (`m_wipMaterialProperty`, valid exactly
between `BeginMaterialProperty` and `EndMaterialProperty`) is carried by the
`collectingProperty` state. -/
inductive CreatorPhase
  | uninitialized
  | collecting
  | collectingProperty (wip : MaterialPropertyDescriptor)
  | closed
deriving DecidableEq

/-- Whether a construction session is open, i.e. the Creator is between
`Begin()` and `End()`. -/
def sessionOpen : CreatorPhase → Bool
  | .collecting => true
  | .collectingProperty _ => true
  | _ => false

/-- Whether a property sub-session is open (the only state in which
output-mapping calls and enum-name registration are legal). -/
def isCollectingProperty : CreatorPhase → Bool
  | .collectingProperty _ => true
  | _ => false

/-- The error taxonomy of the component; every validation failure is surfaced
as one of these through the diagnostic channel. `layoutConflict` carries the
tag of the disagreeing shader for diagnostics. -/
inductive CreatorError
  | duplicateIdentifier
  | invalidSequence
  | typeMismatch
  | layoutConflict (shaderTag : Name)
  | ownershipConflict
  | unknownReference
deriving DecidableEq

/-- The accumulated state of the `MaterialTypeAssetCreator`. Field names
follow the header (`m_materialPropertiesLayout`,
`m_materialShaderResourceGroupLayout`, ...) without the member prefix. -/
structure Creator where
  phase : CreatorPhase
  assetId : Nat
  shaders : List ShaderEntry
  version : Nat
  versionUpdates : List Nat
  ownedShaderOptions : List (Name × Name)
  propertiesLayout : List MaterialPropertyDescriptor
  propertyValues : List (Name × MaterialPropertyValue)
  functors : List (Nat × Name)
  uvNames : List (Name × Name)
  materialShaderResourceGroupLayout : Option ShaderResourceGroupLayout
deriving DecidableEq

/-- The frozen, immutable `MaterialTypeAsset` descriptor produced by a
successful `End()`. -/
structure MaterialTypeAsset where
  assetId : Nat
  shaders : List ShaderEntry
  version : Nat
  versionUpdates : List Nat
  propertiesLayout : List MaterialPropertyDescriptor
  propertyValues : List (Name × MaterialPropertyValue)
  functors : List (Nat × Name)
  uvNames : List (Name × Name)
  ownedShaderOptions : List (Name × Name)
  materialSrgLayout : Option ShaderResourceGroupLayout
deriving DecidableEq

/-- The Creator before any `Begin()` call. -/
def initialCreator : Creator :=
  { phase := .uninitialized
    assetId := 0
    shaders := []
    version := 1
    versionUpdates := []
    ownedShaderOptions := []
    propertiesLayout := []
    propertyValues := []
    functors := []
    uvNames := []
    materialShaderResourceGroupLayout := none }

/-- The Creator after a session has been closed by `End()`: all accumulated
state has been moved out or discarded and a new `Begin()` is required before
reuse. -/
def closedCreator : Creator :=
  { initialCreator with phase := .closed }

/-- A default-constructed result slot handed to `End()`. -/
def emptyAsset : MaterialTypeAsset :=
  { assetId := 0
    shaders := []
    version := 1
    versionUpdates := []
    propertiesLayout := []
    propertyValues := []
    functors := []
    uvNames := []
    ownedShaderOptions := []
    materialSrgLayout := none }

/-- Association lookup by name (first match). -/
def lookupAssoc {α : Type} : List (Name × α) → Name → Option α
  | [], _ => none
  | (k, a) :: rest, n => if k = n then some a else lookupAssoc rest n

/-- Association update by name: overwrites the first existing binding,
appends when absent. -/
def setAssoc {α : Type} : List (Name × α) → Name → α → List (Name × α)
  | [], n, v => [(n, v)]
  | (k, a) :: rest, n, v =>
    if k = n then (n, v) :: rest else (k, a) :: setAssoc rest n v

/-- Lookup of a completed property descriptor by name in the layout. -/
def findProperty : List MaterialPropertyDescriptor → Name → Option MaterialPropertyDescriptor
  | [], _ => none
  | d :: rest, n => if d.name = n then some d else findProperty rest n

/-- The index the layout assigns to a property name: the position of the
first descriptor with that name (the append position, since names are
unique). -/
def propertyIndex : List MaterialPropertyDescriptor → Name → Nat
  | [], _ => 0
  | d :: rest, n => if d.name = n then 0 else propertyIndex rest n + 1

/-- Whether a (shader tag, pipeline name) pair is already used in the shader
collection. -/
def tagUsed : List ShaderEntry → Name → Name → Bool
  | [], _, _ => false
  | e :: rest, t, p =>
    decide (e.shaderTag = t ∧ e.materialPipelineName = p) || tagUsed rest t p

/-- Whether some shader in the collection carries the given tag. -/
def tagExists : List ShaderEntry → Name → Bool
  | [], _ => false
  | e :: rest, t => decide (e.shaderTag = t) || tagExists rest t

/-- Modelled from the spec: `Begin(id)` fails if a session is already open;
otherwise it initializes an empty layout and empty shader collection tagged
with the asset id and enters the `Collecting` state. It is legal again after
`End()` has closed a session. -/
def beginCreate (id : Nat) (c : Creator) : Creator × Option CreatorError :=
  if sessionOpen c.phase then (c, some .invalidSequence)
  else ({ initialCreator with phase := .collecting, assetId := id }, none)

/-- Modelled from the spec: `AddShader` fails if the shader tag is already
used for the same material-pipeline name (DuplicateIdentifier). If the shader
exposes a per-material resource-binding group, the layout is compared
structurally against any previously cached layout: a mismatch is reported
immediately as a LayoutConflict naming the disagreeing shader, and on the
first contribution the layout is cached. Failures leave the accumulated state
unchanged. -/
def addShader (sh : ShaderAsset) (variantId : Nat) (tag pipeline : Name)
    (c : Creator) : Creator × Option CreatorError :=
  if sessionOpen c.phase then
    if tagUsed c.shaders tag pipeline then (c, some .duplicateIdentifier)
    else
      match sh.materialSrgLayout, c.materialShaderResourceGroupLayout with
      | some l, some l0 =>
        if l = l0 then
          ({ c with shaders := c.shaders ++ [⟨sh, variantId, tag, pipeline⟩] }, none)
        else (c, some (.layoutConflict tag))
      | some l, none =>
        ({ c with
            shaders := c.shaders ++ [⟨sh, variantId, tag, pipeline⟩]
            materialShaderResourceGroupLayout := some l }, none)
      | none, _ =>
        ({ c with shaders := c.shaders ++ [⟨sh, variantId, tag, pipeline⟩] }, none)
  else (c, some .invalidSequence)

/-- Modelled from the spec: `SetVersion` is pure metadata accumulation inside
an open session. -/
def setVersion (n : Nat) (c : Creator) : Creator × Option CreatorError :=
  if sessionOpen c.phase then ({ c with version := n }, none)
  else (c, some .invalidSequence)

/-- Modelled from the spec: `AddVersionUpdate` accumulates one version-update
rule (represented by its target version); monotonic-version sanity is only
checked at `End()`. -/
def addVersionUpdate (toVersion : Nat) (c : Creator) : Creator × Option CreatorError :=
  if sessionOpen c.phase then
    ({ c with versionUpdates := c.versionUpdates ++ [toVersion] }, none)
  else (c, some .invalidSequence)

/-- Modelled from the spec: `ClaimShaderOptionOwnership` records an ownership
claim together with its claiming source scope. A duplicate identical claim is
an idempotent success; a claim of the same option from a different,
incompatible source fails with OwnershipConflict and mutates nothing.
Incompatibility between sources is modelled as inequality of their scopes. -/
def claimShaderOptionOwnership (optionName sourceScope : Name)
    (c : Creator) : Creator × Option CreatorError :=
  if sessionOpen c.phase then
    match lookupAssoc c.ownedShaderOptions optionName with
    | some s =>
      if s = sourceScope then (c, none) else (c, some .ownershipConflict)
    | none =>
      ({ c with ownedShaderOptions := c.ownedShaderOptions ++ [(optionName, sourceScope)] }, none)
  else (c, some .invalidSequence)

/-- The source scope used for the implicit material-owned claims made by
`ConnectMaterialPropertyToShaderOptions`. -/
def materialOwnedScope : Name := "MaterialType"

/-- Modelled from the spec: `BeginMaterialProperty` fails if a property
session is already open or no session is open (InvalidSequence), or if the
name already exists in the layout (DuplicateIdentifier); otherwise it
initializes the pending descriptor and enters `CollectingProperty`. -/
def beginMaterialProperty (n : Name) (dataType : MaterialPropertyDataType)
    (c : Creator) : Creator × Option CreatorError :=
  match c.phase with
  | .collecting =>
    match findProperty c.propertiesLayout n with
    | some _ => (c, some .duplicateIdentifier)
    | none => ({ c with phase := .collectingProperty ⟨n, dataType, [], []⟩ }, none)
  | _ => (c, some .invalidSequence)

/-- Modelled from the spec: legal only inside `CollectingProperty`; the named
shader input must exist in the cached per-material resource-binding layout,
otherwise the mapping references an undeclared input (UnknownReference). -/
def connectMaterialPropertyToShaderInput (inputName : Name)
    (c : Creator) : Creator × Option CreatorError :=
  match c.phase with
  | .collectingProperty w =>
    match c.materialShaderResourceGroupLayout with
    | some l =>
      if inputName ∈ l.inputs then
        let w2 := { w with outputConnections := w.outputConnections ++ [.shaderInput inputName] }
        ({ c with phase := .collectingProperty w2 }, none)
      else (c, some .unknownReference)
    | none => (c, some .unknownReference)
  | _ => (c, some .invalidSequence)

/-- Modelled from the spec: legal only inside `CollectingProperty`; adds one
mapping for every added shader that declares a matching option (zero matches
is inert, not an error) and implicitly performs the same material-owned
ownership claim as `ClaimShaderOptionOwnership`. -/
def connectMaterialPropertyToShaderOptions (optionName : Name)
    (c : Creator) : Creator × Option CreatorError :=
  match c.phase with
  | .collectingProperty w =>
    let matching := c.shaders.filter (fun e => e.shaderAsset.shaderOptions.contains optionName)
    let connected : CreatorPhase := .collectingProperty
      ({ w with outputConnections :=
          w.outputConnections ++ matching.map (fun e => .shaderOption optionName e.shaderTag) })
    match lookupAssoc c.ownedShaderOptions optionName with
    | some s =>
      if s = materialOwnedScope then ({ c with phase := connected }, none)
      else (c, some .ownershipConflict)
    | none =>
      ({ c with
          phase := connected
          ownedShaderOptions := c.ownedShaderOptions ++ [(optionName, materialOwnedScope)] }, none)
  | _ => (c, some .invalidSequence)

/-- Modelled from the spec: legal only inside `CollectingProperty`; the tag
must identify a shader previously added to the material type, otherwise the
mapping references an undeclared shader (UnknownReference). -/
def connectMaterialPropertyToShaderEnabled (tag : Name)
    (c : Creator) : Creator × Option CreatorError :=
  match c.phase with
  | .collectingProperty w =>
    if tagExists c.shaders tag then
      let w2 := { w with outputConnections := w.outputConnections ++ [.shaderEnabled tag] }
      ({ c with phase := .collectingProperty w2 }, none)
    else (c, some .unknownReference)
  | _ => (c, some .invalidSequence)

/-- Modelled from the spec: legal only while the pending property exists and
its declared type is the enum kind (TypeMismatch otherwise); overwrites any
prior enum-name list of the in-progress property. -/
def setMaterialPropertyEnumNames (enumNames : List String)
    (c : Creator) : Creator × Option CreatorError :=
  match c.phase with
  | .collectingProperty w =>
    if w.dataType = .enumType then
      ({ c with phase := .collectingProperty ({ w with enumNames := enumNames }) }, none)
    else (c, some .typeMismatch)
  | _ => (c, some .invalidSequence)

/-- Modelled from the spec: `EndMaterialProperty` fails if no property
session is open; otherwise it appends the completed descriptor to the layout
(preserving order) and clears the pending state. -/
def endMaterialProperty (c : Creator) : Creator × Option CreatorError :=
  match c.phase with
  | .collectingProperty w =>
    ({ c with phase := .collecting, propertiesLayout := c.propertiesLayout ++ [w] }, none)
  | _ => (c, some .invalidSequence)

/-- Modelled from the spec: `SetPropertyValue` is legal only in `Collecting`
(after the named property has been closed); it fails with UnknownReference if
the name is not in the layout and with TypeMismatch if the value's kind does
not match the declared data type; otherwise the value is recorded. -/
def setPropertyValue (n : Name) (v : MaterialPropertyValue)
    (c : Creator) : Creator × Option CreatorError :=
  match c.phase with
  | .collecting =>
    match findProperty c.propertiesLayout n with
    | none => (c, some .unknownReference)
    | some d =>
      if kindOf v = d.dataType then
        ({ c with propertyValues := setAssoc c.propertyValues n v }, none)
      else (c, some .typeMismatch)
  | _ => (c, some .invalidSequence)

/-- Modelled from the spec: `AddMaterialFunctor` is pure accumulation with
ordering preserved; the functor itself is opaque and represented by an id. -/
def addMaterialFunctor (functorId : Nat) (pipeline : Name)
    (c : Creator) : Creator × Option CreatorError :=
  if sessionOpen c.phase then ({ c with functors := c.functors ++ [(functorId, pipeline)] }, none)
  else (c, some .invalidSequence)

/-- Modelled from the spec: `AddUvName` accumulates into the semantic-to-name
mapping, last write for a given semantic wins. -/
def addUvName (shaderSemantic uvName : Name)
    (c : Creator) : Creator × Option CreatorError :=
  if sessionOpen c.phase then
    ({ c with uvNames := setAssoc c.uvNames shaderSemantic uvName }, none)
  else (c, some .invalidSequence)

/-- Read-only introspection of the properties layout, valid only between
`Begin()` and `End()`; returns the null signal outside that window. -/
def getMaterialPropertiesLayout (c : Creator) : Option (List MaterialPropertyDescriptor) :=
  if sessionOpen c.phase then some c.propertiesLayout else none

/-- Read-only introspection of the cached per-material resource-binding
layout; null outside the session window and null inside it until a shader
contributes the layout. -/
def getMaterialShaderResourceGroupLayout (c : Creator) : Option ShaderResourceGroupLayout :=
  if sessionOpen c.phase then c.materialShaderResourceGroupLayout else none

/-- Whether the version-update target versions are strictly increasing. -/
def versionUpdatesSorted : List Nat → Bool
  | [] => true
  | [_] => true
  | a :: b :: rest => decide (a < b) && versionUpdatesSorted (b :: rest)

/-- Modelled from the spec: the final validation run by `End()` —
monotonic-version sanity of the recorded version updates against the current
version. (The dangling-open-property check is expressed by the phase match in
`endCreate` itself, and the shared-layout consistency was already enforced
incrementally; a null cached layout is valid and is not inspected here.) -/
def finalValidation (c : Creator) : Bool :=
  versionUpdatesSorted c.versionUpdates && c.versionUpdates.all (fun u => decide (u ≤ c.version))

/-- The frozen descriptor assembled from the accumulated state. -/
def freeze (c : Creator) : MaterialTypeAsset :=
  { assetId := c.assetId
    shaders := c.shaders
    version := c.version
    versionUpdates := c.versionUpdates
    propertiesLayout := c.propertiesLayout
    propertyValues := c.propertyValues
    functors := c.functors
    uvNames := c.uvNames
    ownedShaderOptions := c.ownedShaderOptions
    materialSrgLayout := c.materialShaderResourceGroupLayout }

/-- The outcome of `End(result)`: the success flag it returns, the (possibly
untouched) caller-supplied result slot, the Creator afterwards, and the error
reported through the diagnostic channel on failure. -/
structure EndResult where
  success : Bool
  result : MaterialTypeAsset
  creator : Creator
  error : Option CreatorError
deriving DecidableEq

/-- Modelled from the spec: `End(result)` runs final validation; on success
it moves the fully accumulated state into the immutable descriptor assigned
to `result` and returns true. On failure it returns false, leaves `result`
unmodified and reports through the diagnostic channel. Either way a session
that was open is left closed and must be re-Begin-ed before reuse. A deferred
version-sanity failure has no dedicated taxonomy case and is reported as
`invalidSequence`, as is a dangling open property session or the absence of
an open session. -/
def endCreate (c : Creator) (result : MaterialTypeAsset) : EndResult :=
  match c.phase with
  | .collecting =>
    if finalValidation c then ⟨true, freeze c, closedCreator, none⟩
    else ⟨false, result, closedCreator, some .invalidSequence⟩
  | .collectingProperty _ => ⟨false, result, closedCreator, some .invalidSequence⟩
  | _ => ⟨false, result, c, some .invalidSequence⟩

/-- One call of the public construction interface, for reasoning about whole
construction sequences. -/
inductive Op
  | beginCreate (id : Nat)
  | addShader (sh : ShaderAsset) (variantId : Nat) (tag pipeline : Name)
  | setVersion (n : Nat)
  | addVersionUpdate (toVersion : Nat)
  | claimShaderOptionOwnership (optionName sourceScope : Name)
  | beginMaterialProperty (n : Name) (dataType : MaterialPropertyDataType)
  | connectMaterialPropertyToShaderInput (inputName : Name)
  | connectMaterialPropertyToShaderOptions (optionName : Name)
  | connectMaterialPropertyToShaderEnabled (tag : Name)
  | setMaterialPropertyEnumNames (enumNames : List String)
  | endMaterialProperty
  | setPropertyValue (n : Name) (v : MaterialPropertyValue)
  | addMaterialFunctor (functorId : Nat) (pipeline : Name)
  | addUvName (shaderSemantic uvName : Name)
  | endCreate

/-- Dispatch of one interface call on the Creator state. -/
def applyOp (c : Creator) (op : Op) : Creator × Option CreatorError :=
  match op with
  | .beginCreate id => beginCreate id c
  | .addShader sh v tag pipeline => addShader sh v tag pipeline c
  | .setVersion n => setVersion n c
  | .addVersionUpdate u => addVersionUpdate u c
  | .claimShaderOptionOwnership n s => claimShaderOptionOwnership n s c
  | .beginMaterialProperty n ty => beginMaterialProperty n ty c
  | .connectMaterialPropertyToShaderInput n => connectMaterialPropertyToShaderInput n c
  | .connectMaterialPropertyToShaderOptions n => connectMaterialPropertyToShaderOptions n c
  | .connectMaterialPropertyToShaderEnabled t => connectMaterialPropertyToShaderEnabled t c
  | .setMaterialPropertyEnumNames ns => setMaterialPropertyEnumNames ns c
  | .endMaterialProperty => endMaterialProperty c
  | .setPropertyValue n v => setPropertyValue n v c
  | .addMaterialFunctor f p => addMaterialFunctor f p c
  | .addUvName sem uv => addUvName sem uv c
  | .endCreate => ((endCreate c emptyAsset).creator, (endCreate c emptyAsset).error)

/-- The Creator after one call (failing calls leave the state unchanged). -/
def runStep (c : Creator) (op : Op) : Creator := (applyOp c op).1

/-- The Creator after a sequence of calls. -/
def runOps (c : Creator) (ops : List Op) : Creator := ops.foldl runStep c

/-- Whether every call of the sequence succeeds when run from the given
state. -/
def opsSucceed (c : Creator) : List Op → Bool
  | [] => true
  | op :: rest =>
    match applyOp c op with
    | (c2, none) => opsSucceed c2 rest
    | (_, some _) => false

/-- Whether the call is a session-local operation, i.e. not a session
boundary (`Begin` / `End`). -/
def notBoundary : Op → Bool
  | .beginCreate _ => false
  | .endCreate => false
  | _ => true

/-- Whether the call is a `Begin`. -/
def isBeginOp : Op → Bool
  | .beginCreate _ => true
  | _ => false

/-- Whether the call could contribute a per-material resource-binding layout:
only an `AddShader` whose shader exposes one. -/
def contributesLayout : Op → Bool
  | .addShader sh _ _ _ => sh.materialSrgLayout.isSome
  | _ => false

/-- The name of the pending in-progress property, when one is open. -/
def pendingOf : CreatorPhase → Option Name
  | .collectingProperty w => some w.name
  | _ => none

/-- The property names a sequence of calls completes (one per
`EndMaterialProperty` that closes an open property session), in call order,
starting from the given pending property. -/
def completedPropertyNames : Option Name → List Op → List Name
  | _, [] => []
  | pending, op :: rest =>
    match op with
    | .beginMaterialProperty n _ => completedPropertyNames (some n) rest
    | .endMaterialProperty =>
      match pending with
      | some n => n :: completedPropertyNames none rest
      | none => completedPropertyNames none rest
    | _ => completedPropertyNames pending rest

/-! ### Helper lemmas about the association-list and layout primitives -/

theorem lookupAssoc_append_none {α : Type} : ∀ (l : List (Name × α)) (n : Name) (a : α),
    lookupAssoc l n = none → lookupAssoc (l ++ [(n, a)]) n = some a
  | [], n, a, _ => by simp [lookupAssoc]
  | (k, b) :: rest, n, a, h => by
    by_cases hk : k = n
    · simp only [lookupAssoc] at h
      rw [if_pos hk] at h
      exact Option.noConfusion h
    · simp only [lookupAssoc, hk, if_false, List.cons_append] at h ⊢
      exact lookupAssoc_append_none rest n a h

theorem lookupAssoc_setAssoc {α : Type} : ∀ (l : List (Name × α)) (n : Name) (v : α),
    lookupAssoc (setAssoc l n v) n = some v
  | [], n, v => by simp [setAssoc, lookupAssoc]
  | (k, b) :: rest, n, v => by
    by_cases hk : k = n
    · simp [setAssoc, hk, lookupAssoc]
    · simp [setAssoc, hk, lookupAssoc, lookupAssoc_setAssoc rest n v]

theorem findProperty_none_not_mem : ∀ (l : List MaterialPropertyDescriptor) (n : Name),
    findProperty l n = none → n ∉ l.map MaterialPropertyDescriptor.name
  | [], n, _ => by simp
  | d :: rest, n, h => by
    by_cases hd : d.name = n
    · simp [findProperty, hd] at h
    · simp only [findProperty, hd, if_false] at h
      simp only [List.map_cons, List.mem_cons, not_or]
      exact ⟨fun he => hd he.symm, findProperty_none_not_mem rest n h⟩

theorem propertyIndex_getElem : ∀ (l : List MaterialPropertyDescriptor),
    (l.map MaterialPropertyDescriptor.name).Nodup →
    ∀ (i : Nat) (h : i < l.length), propertyIndex l (l[i].name) = i
  | [], _, i, h => by simp at h
  | d :: rest, hnd, 0, h => by simp [propertyIndex]
  | d :: rest, hnd, i + 1, h => by
    simp only [List.map_cons, List.nodup_cons] at hnd
    have hlen : i < rest.length := by simpa using h
    have hmem : rest[i].name ∈ rest.map MaterialPropertyDescriptor.name :=
      List.mem_map_of_mem _ (List.getElem_mem hlen)
    have hne : ¬ d.name = rest[i].name := fun he => hnd.1 (he ▸ hmem)
    simp only [List.getElem_cons_succ, propertyIndex, hne, if_false]
    rw [propertyIndex_getElem rest hnd.2 i hlen]

/-! ### Claim theorems: local state-machine contracts -/

/-- C5: in every Creator state that is not `CollectingProperty`, each of the
three mapping-connection calls fails with InvalidSequence and leaves the
state unchanged; they can succeed only while a property session is open. -/
theorem connect_calls_require_property_session :
    ∀ (c : Creator) (n : Name),
      isCollectingProperty c.phase = false →
      connectMaterialPropertyToShaderInput n c = (c, some CreatorError.invalidSequence) ∧
      connectMaterialPropertyToShaderOptions n c = (c, some CreatorError.invalidSequence) ∧
      connectMaterialPropertyToShaderEnabled n c = (c, some CreatorError.invalidSequence) := by
  intro c n h
  cases hp : c.phase with
  | collectingProperty w =>
    rw [hp] at h
    simp [isCollectingProperty] at h
  | uninitialized =>
    exact ⟨by simp [connectMaterialPropertyToShaderInput, hp],
           by simp [connectMaterialPropertyToShaderOptions, hp],
           by simp [connectMaterialPropertyToShaderEnabled, hp]⟩
  | collecting =>
    exact ⟨by simp [connectMaterialPropertyToShaderInput, hp],
           by simp [connectMaterialPropertyToShaderOptions, hp],
           by simp [connectMaterialPropertyToShaderEnabled, hp]⟩
  | closed =>
    exact ⟨by simp [connectMaterialPropertyToShaderInput, hp],
           by simp [connectMaterialPropertyToShaderOptions, hp],
           by simp [connectMaterialPropertyToShaderEnabled, hp]⟩

/-- C9: the two introspection accessors return a non-null result only while
a construction session is open (between `Begin()` and `End()`): outside that
window both return the null signal, and inside it the properties layout is
available. -/
theorem introspection_window :
    ∀ c : Creator,
      (sessionOpen c.phase = false →
        getMaterialPropertiesLayout c = none ∧
        getMaterialShaderResourceGroupLayout c = none) ∧
      (sessionOpen c.phase = true →
        getMaterialPropertiesLayout c = some c.propertiesLayout) ∧
      (∀ l, getMaterialShaderResourceGroupLayout c = some l → sessionOpen c.phase = true) := by
  intro c
  by_cases h : sessionOpen c.phase = true
  · simp [getMaterialPropertiesLayout, getMaterialShaderResourceGroupLayout, h]
  · simp only [Bool.not_eq_true] at h
    simp [getMaterialPropertiesLayout, getMaterialShaderResourceGroupLayout, h]

/-- C8: with a property session open, `SetMaterialPropertyEnumNames` fails
with TypeMismatch when the pending property is not enum-typed; on an
enum-typed pending property it succeeds, overwrites any previously set
enum-name list (the resulting list is the given one regardless of the prior
one), and closing the property appends a descriptor carrying exactly the
given names in order. -/
theorem setMaterialPropertyEnumNames_spec :
    ∀ (c : Creator) (w : MaterialPropertyDescriptor) (names : List String),
      c.phase = CreatorPhase.collectingProperty w →
      (w.dataType ≠ MaterialPropertyDataType.enumType →
        setMaterialPropertyEnumNames names c = (c, some CreatorError.typeMismatch)) ∧
      (w.dataType = MaterialPropertyDataType.enumType →
        setMaterialPropertyEnumNames names c =
          ({ c with phase := CreatorPhase.collectingProperty ({ w with enumNames := names }) }, none) ∧
        (endMaterialProperty (setMaterialPropertyEnumNames names c).1).1.propertiesLayout =
          c.propertiesLayout ++ [{ w with enumNames := names }]) := by
  intro c w names hp
  constructor
  · intro hne
    simp [setMaterialPropertyEnumNames, hp, hne]
  · intro he
    have h1 : setMaterialPropertyEnumNames names c =
        ({ c with phase := CreatorPhase.collectingProperty ({ w with enumNames := names }) }, none) := by
      simp [setMaterialPropertyEnumNames, hp, he]
    exact ⟨h1, by rw [h1]; simp [endMaterialProperty]⟩

/-- C7: claiming ownership of a previously unclaimed shader option succeeds;
repeating the identical claim succeeds again as a pure no-op, while a second
claim of the same option from a different, incompatible source fails with
OwnershipConflict and leaves the recorded first claim unmodified. -/
theorem claimShaderOptionOwnership_idempotent :
    ∀ (c : Creator) (n s s2 : Name),
      sessionOpen c.phase = true →
      lookupAssoc c.ownedShaderOptions n = none →
      (claimShaderOptionOwnership n s c).2 = none ∧
      claimShaderOptionOwnership n s (claimShaderOptionOwnership n s c).1 =
        ((claimShaderOptionOwnership n s c).1, none) ∧
      (s2 ≠ s →
        claimShaderOptionOwnership n s2 (claimShaderOptionOwnership n s c).1 =
          ((claimShaderOptionOwnership n s c).1, some CreatorError.ownershipConflict)) := by
  intro c n s s2 hopen hnone
  have h1 : claimShaderOptionOwnership n s c =
      ({ c with ownedShaderOptions := c.ownedShaderOptions ++ [(n, s)] }, none) := by
    simp [claimShaderOptionOwnership, hopen, hnone]
  have hlook : lookupAssoc (c.ownedShaderOptions ++ [(n, s)]) n = some s :=
    lookupAssoc_append_none _ _ _ hnone
  refine ⟨by simp [h1], ?_, ?_⟩
  · rw [h1]
    simp [claimShaderOptionOwnership, hopen, hlook]
  · intro hne
    have hne2 : ¬ s = s2 := fun he => hne he.symm
    rw [h1]
    simp [claimShaderOptionOwnership, hopen, hlook, hne2]

/-- C4: with a session open in `Collecting`, `SetPropertyValue` fails with
UnknownReference for a name never declared through a completed property
session, fails with TypeMismatch for a declared property when the value kind
does not match its declared data type, and for a matching kind succeeds, the
frozen descriptor of a subsequently successful `End()` mapping the name to
exactly that value. -/
theorem setPropertyValue_trichotomy :
    ∀ (c : Creator) (n : Name) (v : MaterialPropertyValue),
      c.phase = CreatorPhase.collecting →
      (findProperty c.propertiesLayout n = none →
        setPropertyValue n v c = (c, some CreatorError.unknownReference)) ∧
      (∀ d, findProperty c.propertiesLayout n = some d →
        kindOf v ≠ d.dataType →
        setPropertyValue n v c = (c, some CreatorError.typeMismatch)) ∧
      (∀ d, findProperty c.propertiesLayout n = some d →
        kindOf v = d.dataType →
        (setPropertyValue n v c).2 = none ∧
        ∀ r, (endCreate (setPropertyValue n v c).1 r).success = true →
          lookupAssoc (endCreate (setPropertyValue n v c).1 r).result.propertyValues n = some v) := by
  intro c n v hp
  refine ⟨?_, ?_, ?_⟩
  · intro hnone
    simp [setPropertyValue, hp, hnone]
  · intro d hd hne
    simp [setPropertyValue, hp, hd, hne]
  · intro d hd hk
    have h1 : setPropertyValue n v c =
        ({ c with propertyValues := setAssoc c.propertyValues n v }, none) := by
      simp [setPropertyValue, hp, hd, hk]
    refine ⟨by simp [h1], ?_⟩
    intro r hs
    rw [h1] at hs ⊢
    simp only [endCreate, hp] at hs ⊢
    split at hs
    · rename_i h2
      rw [if_pos h2]
      simp [freeze, lookupAssoc_setAssoc]
    · simp at hs

/-- C6: for an open construction session, a failing `End(result)` returns
false, leaves the caller-supplied result slot unmodified and leaves the
Creator closed, in a state where every call other than `Begin` fails with
InvalidSequence while a new `Begin` succeeds; a successful `End(result)`
returns true and assigns the fully accumulated frozen descriptor to the
result slot. -/
theorem endCreate_atomicity :
    ∀ (c : Creator) (r : MaterialTypeAsset),
      sessionOpen c.phase = true →
      ((endCreate c r).success = false →
        (endCreate c r).result = r ∧
        (endCreate c r).creator = closedCreator ∧
        (∀ op, isBeginOp op = false →
          applyOp closedCreator op = (closedCreator, some CreatorError.invalidSequence)) ∧
        (∀ id, (beginCreate id closedCreator).2 = none)) ∧
      ((endCreate c r).success = true →
        (endCreate c r).result = freeze c ∧
        (endCreate c r).creator = closedCreator) := by
  intro c r hopen
  have hclosed : ∀ op, isBeginOp op = false →
      applyOp closedCreator op = (closedCreator, some CreatorError.invalidSequence) := by
    intro op hop
    cases op <;>
      simp_all [applyOp, isBeginOp, beginCreate, addShader, setVersion, addVersionUpdate,
        claimShaderOptionOwnership, beginMaterialProperty, connectMaterialPropertyToShaderInput,
        connectMaterialPropertyToShaderOptions, connectMaterialPropertyToShaderEnabled,
        setMaterialPropertyEnumNames, endMaterialProperty, setPropertyValue,
        addMaterialFunctor, addUvName, endCreate, closedCreator, initialCreator, sessionOpen]
  have hbegin : ∀ id, (beginCreate id closedCreator).2 = none := by
    intro id
    simp [beginCreate, closedCreator, initialCreator, sessionOpen]
  cases hp : c.phase with
  | uninitialized => rw [hp] at hopen; simp [sessionOpen] at hopen
  | closed => rw [hp] at hopen; simp [sessionOpen] at hopen
  | collectingProperty w =>
    refine ⟨fun _ => ⟨?_, ?_, hclosed, hbegin⟩, fun hs => ?_⟩
    · simp [endCreate, hp]
    · simp [endCreate, hp]
    · simp [endCreate, hp] at hs
  | collecting =>
    by_cases hfv : finalValidation c = true
    · refine ⟨fun hs => ?_, fun _ => ⟨?_, ?_⟩⟩
      · simp [endCreate, hp, hfv] at hs
      · simp [endCreate, hp, hfv]
      · simp [endCreate, hp, hfv]
    · simp only [Bool.not_eq_true] at hfv
      refine ⟨fun _ => ⟨?_, ?_, hclosed, hbegin⟩, fun hs => ?_⟩
      · simp [endCreate, hp, hfv]
      · simp [endCreate, hp, hfv]
      · simp [endCreate, hp, hfv] at hs

/-! ### Preservation lemmas about the cached layout, session phase and
shader collection -/

theorem applyOp_layout_none (c : Creator) (op : Op)
    (h : contributesLayout op = false)
    (hn : c.materialShaderResourceGroupLayout = none) :
    (applyOp c op).1.materialShaderResourceGroupLayout = none := by
  cases op <;>
    simp only [applyOp, beginCreate, addShader, setVersion, addVersionUpdate,
      claimShaderOptionOwnership, beginMaterialProperty, connectMaterialPropertyToShaderInput,
      connectMaterialPropertyToShaderOptions, connectMaterialPropertyToShaderEnabled,
      setMaterialPropertyEnumNames, endMaterialProperty, setPropertyValue,
      addMaterialFunctor, addUvName, endCreate, contributesLayout] at h ⊢ <;>
    (repeat' split) <;>
    simp_all [closedCreator, initialCreator]

theorem applyOp_layout_some (c : Creator) (op : Op) (l : ShaderResourceGroupLayout)
    (hb : notBoundary op = true)
    (hl : c.materialShaderResourceGroupLayout = some l) :
    (applyOp c op).1.materialShaderResourceGroupLayout = some l := by
  cases op <;>
    simp only [applyOp, beginCreate, addShader, setVersion, addVersionUpdate,
      claimShaderOptionOwnership, beginMaterialProperty, connectMaterialPropertyToShaderInput,
      connectMaterialPropertyToShaderOptions, connectMaterialPropertyToShaderEnabled,
      setMaterialPropertyEnumNames, endMaterialProperty, setPropertyValue,
      addMaterialFunctor, addUvName, endCreate, notBoundary] at hb ⊢ <;>
    (repeat' split) <;>
    simp_all

theorem applyOp_sessionOpen (c : Creator) (op : Op)
    (hb : notBoundary op = true)
    (ho : sessionOpen c.phase = true) :
    sessionOpen (applyOp c op).1.phase = true := by
  cases op <;>
    simp only [applyOp, beginCreate, addShader, setVersion, addVersionUpdate,
      claimShaderOptionOwnership, beginMaterialProperty, connectMaterialPropertyToShaderInput,
      connectMaterialPropertyToShaderOptions, connectMaterialPropertyToShaderEnabled,
      setMaterialPropertyEnumNames, endMaterialProperty, setPropertyValue,
      addMaterialFunctor, addUvName, endCreate, notBoundary] at hb ⊢ <;>
    (repeat' split) <;>
    simp_all [sessionOpen]

theorem runOps_layout_none : ∀ (ops : List Op) (c : Creator),
    ops.all (fun o => !contributesLayout o) = true →
    c.materialShaderResourceGroupLayout = none →
    (runOps c ops).materialShaderResourceGroupLayout = none
  | [], _, _, hn => hn
  | op :: rest, c, h, hn => by
    simp only [List.all_cons, Bool.and_eq_true, Bool.not_eq_true'] at h
    exact runOps_layout_none rest _ (by simpa using h.2) (applyOp_layout_none c op h.1 hn)

theorem runOps_layout_some : ∀ (ops : List Op) (c : Creator) (l : ShaderResourceGroupLayout),
    ops.all notBoundary = true →
    c.materialShaderResourceGroupLayout = some l →
    (runOps c ops).materialShaderResourceGroupLayout = some l
  | [], _, _, _, hl => hl
  | op :: rest, c, l, h, hl => by
    simp only [List.all_cons, Bool.and_eq_true] at h
    exact runOps_layout_some rest _ l h.2 (applyOp_layout_some c op l h.1 hl)

theorem runOps_sessionOpen : ∀ (ops : List Op) (c : Creator),
    ops.all notBoundary = true →
    sessionOpen c.phase = true →
    sessionOpen (runOps c ops).phase = true
  | [], _, _, ho => ho
  | op :: rest, c, h, ho => by
    simp only [List.all_cons, Bool.and_eq_true] at h
    exact runOps_sessionOpen rest _ h.2 (applyOp_sessionOpen c op h.1 ho)

/-- An unreachable configuration is excluded: whenever the shader collection
is non-empty, a session is open. -/
def shadersImplyOpen (c : Creator) : Prop :=
  sessionOpen c.phase = false → c.shaders = []

theorem applyOp_shadersImplyOpen (c : Creator) (op : Op)
    (h : shadersImplyOpen c) : shadersImplyOpen (applyOp c op).1 := by
  unfold shadersImplyOpen at h ⊢
  cases op <;>
    simp only [applyOp, beginCreate, addShader, setVersion, addVersionUpdate,
      claimShaderOptionOwnership, beginMaterialProperty, connectMaterialPropertyToShaderInput,
      connectMaterialPropertyToShaderOptions, connectMaterialPropertyToShaderEnabled,
      setMaterialPropertyEnumNames, endMaterialProperty, setPropertyValue,
      addMaterialFunctor, addUvName, endCreate] <;>
    (repeat' split) <;>
    simp_all [sessionOpen, closedCreator, initialCreator]

theorem runOps_shadersImplyOpen : ∀ (ops : List Op) (c : Creator),
    shadersImplyOpen c → shadersImplyOpen (runOps c ops)
  | [], _, h => h
  | op :: rest, c, h => runOps_shadersImplyOpen rest _ (applyOp_shadersImplyOpen c op h)

/-- C1: shared resource-binding layout consistency. Adding a shader whose
per-material layout structurally differs from the cached one fails
immediately with a LayoutConflict naming the disagreeing shader; adding one
with a structurally identical layout succeeds and keeps the shared layout;
when no call contributes a layout the cached layout stays null, and a null
cached layout never affects the success of `End()`. -/
theorem addShader_srgLayout_consistency :
    (∀ (c : Creator) (sh : ShaderAsset) (variantId : Nat) (tag pipeline : Name)
        (l l0 : ShaderResourceGroupLayout),
      sessionOpen c.phase = true →
      tagUsed c.shaders tag pipeline = false →
      c.materialShaderResourceGroupLayout = some l0 →
      sh.materialSrgLayout = some l →
      l ≠ l0 →
      addShader sh variantId tag pipeline c = (c, some (CreatorError.layoutConflict tag))) ∧
    (∀ (c : Creator) (sh : ShaderAsset) (variantId : Nat) (tag pipeline : Name)
        (l : ShaderResourceGroupLayout),
      sessionOpen c.phase = true →
      tagUsed c.shaders tag pipeline = false →
      c.materialShaderResourceGroupLayout = some l →
      sh.materialSrgLayout = some l →
      (addShader sh variantId tag pipeline c).2 = none ∧
      (addShader sh variantId tag pipeline c).1.materialShaderResourceGroupLayout = some l) ∧
    (∀ (ops : List Op) (c : Creator),
      ops.all (fun o => !contributesLayout o) = true →
      c.materialShaderResourceGroupLayout = none →
      (runOps c ops).materialShaderResourceGroupLayout = none) ∧
    (∀ (c : Creator) (r : MaterialTypeAsset),
      (endCreate c r).success =
        (endCreate ({ c with materialShaderResourceGroupLayout := none }) r).success) := by
  refine ⟨?_, ?_, runOps_layout_none, ?_⟩
  · intro c sh variantId tag pipeline l l0 hopen hdup hc hsh hne
    simp [addShader, hopen, hdup, hc, hsh, hne]
  · intro c sh variantId tag pipeline l hopen hdup hc hsh
    constructor
    · simp [addShader, hopen, hdup, hc, hsh]
    · simp [addShader, hopen, hdup, hc, hsh]
  · intro c r
    cases hp : c.phase with
    | uninitialized => simp [endCreate, hp]
    | closed => simp [endCreate, hp]
    | collectingProperty w => simp [endCreate, hp]
    | collecting =>
      simp only [endCreate, hp, finalValidation]
      split
      · rfl
      · rfl

/-- C3: in every reachable Creator state, an `AddShader` call reusing a
shader tag already used for the same material-pipeline name fails with
DuplicateIdentifier, and all previously accumulated state is left unchanged
by the failing call. -/
theorem addShader_duplicate_tag_fails :
    ∀ (ops : List Op) (sh : ShaderAsset) (variantId : Nat) (tag pipeline : Name),
      tagUsed (runOps initialCreator ops).shaders tag pipeline = true →
      addShader sh variantId tag pipeline (runOps initialCreator ops) =
        (runOps initialCreator ops, some CreatorError.duplicateIdentifier) := by
  intro ops sh variantId tag pipeline hdup
  have hinv : shadersImplyOpen (runOps initialCreator ops) :=
    runOps_shadersImplyOpen ops initialCreator (fun _ => rfl)
  have hopen : sessionOpen (runOps initialCreator ops).phase = true := by
    by_contra hno
    simp only [Bool.not_eq_true] at hno
    rw [hinv hno] at hdup
    simp [tagUsed] at hdup
  simp [addShader, hopen, hdup]

/-- C10: inside an open construction session the shader-resource-group
accessor returns null until an `AddShader` call supplies a shader exposing a
per-material layout; once such a call succeeds, the accessor returns exactly
that shader's layout for the remainder of the session. -/
theorem srgLayout_getter_caching :
    (∀ (id : Nat) (ops : List Op),
      ops.all (fun o => !contributesLayout o) = true →
      getMaterialShaderResourceGroupLayout (runOps (beginCreate id initialCreator).1 ops) = none) ∧
    (∀ (c : Creator) (sh : ShaderAsset) (variantId : Nat) (tag pipeline : Name)
        (l : ShaderResourceGroupLayout),
      sessionOpen c.phase = true →
      sh.materialSrgLayout = some l →
      (addShader sh variantId tag pipeline c).2 = none →
      ∀ ops : List Op, ops.all notBoundary = true →
        getMaterialShaderResourceGroupLayout
          (runOps (addShader sh variantId tag pipeline c).1 ops) = some l) := by
  constructor
  · intro id ops hops
    have h0 : (beginCreate id initialCreator).1.materialShaderResourceGroupLayout = none := by
      simp [beginCreate, initialCreator, sessionOpen]
    have hm := runOps_layout_none ops _ hops h0
    unfold getMaterialShaderResourceGroupLayout
    split
    · exact hm
    · rfl
  · intro c sh variantId tag pipeline l hopen hsh hsucc ops hops
    have hdup : tagUsed c.shaders tag pipeline = false := by
      by_contra hd
      simp only [Bool.not_eq_false] at hd
      simp [addShader, hopen, hd] at hsucc
    have hstep : (addShader sh variantId tag pipeline c).1.materialShaderResourceGroupLayout = some l ∧
        (addShader sh variantId tag pipeline c).1.phase = c.phase := by
      cases hc : c.materialShaderResourceGroupLayout with
      | none => simp [addShader, hopen, hdup, hc, hsh]
      | some l0 =>
        by_cases hl : l = l0
        · subst hl
          simp [addShader, hopen, hdup, hc, hsh]
        · simp [addShader, hopen, hdup, hc, hsh, hl] at hsucc
    have hm := runOps_layout_some ops _ l hops hstep.1
    have ho2 : sessionOpen (addShader sh variantId tag pipeline c).1.phase = true := by
      rw [hstep.2]; exact hopen
    have ho3 := runOps_sessionOpen ops _ hops ho2
    simp [getMaterialShaderResourceGroupLayout, ho3, hm]

/-! ### Simulation lemmas for the property-layout order -/

theorem findProperty_eq_none_iff : ∀ (l : List MaterialPropertyDescriptor) (n : Name),
    findProperty l n = none ↔ n ∉ l.map MaterialPropertyDescriptor.name
  | [], n => by simp [findProperty]
  | d :: rest, n => by
    by_cases hd : d.name = n
    · simp [findProperty, hd]
    · have hd2 : ¬ n = d.name := fun he => hd he.symm
      simp [findProperty, hd, hd2, findProperty_eq_none_iff rest n]

theorem applyOp_layout_names (c : Creator) (op : Op)
    (hb : notBoundary op = true) (hs : (applyOp c op).2 = none) :
    (applyOp c op).1.propertiesLayout.map MaterialPropertyDescriptor.name =
      c.propertiesLayout.map MaterialPropertyDescriptor.name ++
        (match op, pendingOf c.phase with
         | Op.endMaterialProperty, some n => [n]
         | _, _ => []) := by
  cases op <;>
    simp only [applyOp, beginCreate, addShader, setVersion, addVersionUpdate,
      claimShaderOptionOwnership, beginMaterialProperty, connectMaterialPropertyToShaderInput,
      connectMaterialPropertyToShaderOptions, connectMaterialPropertyToShaderEnabled,
      setMaterialPropertyEnumNames, endMaterialProperty, setPropertyValue,
      addMaterialFunctor, addUvName, endCreate, notBoundary] at hb hs ⊢ <;>
    (repeat' split) <;>
    simp_all [pendingOf, List.map_append]

theorem applyOp_pending (c : Creator) (op : Op)
    (hb : notBoundary op = true) (hs : (applyOp c op).2 = none) :
    pendingOf (applyOp c op).1.phase =
      (match op with
       | Op.beginMaterialProperty n _ => some n
       | Op.endMaterialProperty => none
       | _ => pendingOf c.phase) := by
  cases op <;>
    simp only [applyOp, beginCreate, addShader, setVersion, addVersionUpdate,
      claimShaderOptionOwnership, beginMaterialProperty, connectMaterialPropertyToShaderInput,
      connectMaterialPropertyToShaderOptions, connectMaterialPropertyToShaderEnabled,
      setMaterialPropertyEnumNames, endMaterialProperty, setPropertyValue,
      addMaterialFunctor, addUvName, endCreate, notBoundary] at hb hs ⊢ <;>
    (repeat' split) <;>
    simp_all [pendingOf]

theorem runOps_property_order : ∀ (ops : List Op) (c : Creator),
    ops.all notBoundary = true →
    opsSucceed c ops = true →
    (runOps c ops).propertiesLayout.map MaterialPropertyDescriptor.name =
      c.propertiesLayout.map MaterialPropertyDescriptor.name ++
        completedPropertyNames (pendingOf c.phase) ops
  | [], c, _, _ => by simp [runOps, completedPropertyNames]
  | op :: rest, c, hall, hs => by
    simp only [List.all_cons, Bool.and_eq_true] at hall
    rcases happ : applyOp c op with ⟨c2, e⟩
    cases e with
    | some err =>
      rw [opsSucceed, happ] at hs
      exact Bool.noConfusion hs
    | none =>
      have hs2 : opsSucceed c2 rest = true := by
        rw [opsSucceed, happ] at hs
        exact hs
      have hrs : runOps c (op :: rest) = runOps c2 rest := by
        simp [runOps, runStep, happ]
      have hnames := applyOp_layout_names c op hall.1 (by rw [happ])
      have hpend := applyOp_pending c op hall.1 (by rw [happ])
      simp only [happ] at hnames hpend
      rw [hrs, runOps_property_order rest c2 hall.2 hs2, hnames, hpend]
      cases op <;>
        cases hpd : pendingOf c.phase <;>
        simp [completedPropertyNames, hpd]

/-- The property names recorded in the layout together with the pending
in-progress name; uniqueness of this combined list is the duplicate-name
invariant of the Creator. -/
def layoutNamesWithPending (c : Creator) : List Name :=
  c.propertiesLayout.map MaterialPropertyDescriptor.name ++
    (match c.phase with
     | .collectingProperty w => [w.name]
     | _ => [])

theorem applyOp_namesNodup (c : Creator) (op : Op)
    (hb : notBoundary op = true)
    (h : (layoutNamesWithPending c).Nodup) :
    (layoutNamesWithPending (applyOp c op).1).Nodup := by
  cases op <;>
    simp only [applyOp, beginCreate, addShader, setVersion, addVersionUpdate,
      claimShaderOptionOwnership, beginMaterialProperty, connectMaterialPropertyToShaderInput,
      connectMaterialPropertyToShaderOptions, connectMaterialPropertyToShaderEnabled,
      setMaterialPropertyEnumNames, endMaterialProperty, setPropertyValue,
      addMaterialFunctor, addUvName, endCreate, notBoundary,
      layoutNamesWithPending] at hb h ⊢ <;>
    (repeat' split) <;>
    simp_all [findProperty_eq_none_iff, List.map_append, List.nodup_append, List.nodup_cons] <;>
    (rename_i heq
     subst heq
     simp_all)

theorem runOps_namesNodup : ∀ (ops : List Op) (c : Creator),
    ops.all notBoundary = true →
    (layoutNamesWithPending c).Nodup →
    (layoutNamesWithPending (runOps c ops)).Nodup
  | [], _, _, h => h
  | op :: rest, c, hall, h => by
    simp only [List.all_cons, Bool.and_eq_true] at hall
    exact runOps_namesNodup rest _ hall.2 (applyOp_namesNodup c op hall.1 h)

/-- C2: for every valid construction sequence — `Begin`, then session-local
calls that all succeed and leave no property session open and whose metadata
passes the deferred final validation, then `End` — `End()` succeeds and the
frozen descriptor's property layout lists the properties in exactly the
order the `EndMaterialProperty` calls were made, each property receiving the
index at which it was appended. -/
theorem endCreate_preserves_property_order :
    ∀ (id : Nat) (ops : List Op) (r : MaterialTypeAsset),
      ops.all notBoundary = true →
      opsSucceed (beginCreate id initialCreator).1 ops = true →
      (runOps (beginCreate id initialCreator).1 ops).phase = CreatorPhase.collecting →
      finalValidation (runOps (beginCreate id initialCreator).1 ops) = true →
      (endCreate (runOps (beginCreate id initialCreator).1 ops) r).success = true ∧
      (endCreate (runOps (beginCreate id initialCreator).1 ops) r).result.propertiesLayout.map
          MaterialPropertyDescriptor.name = completedPropertyNames none ops ∧
      ∀ (i : Nat)
        (h : i < (endCreate (runOps (beginCreate id initialCreator).1 ops) r).result.propertiesLayout.length),
        propertyIndex
            (endCreate (runOps (beginCreate id initialCreator).1 ops) r).result.propertiesLayout
            ((endCreate (runOps (beginCreate id initialCreator).1 ops) r).result.propertiesLayout[i].name) =
          i := by
  intro id ops r hall hsucc hphase hval
  have hend : endCreate (runOps (beginCreate id initialCreator).1 ops) r =
      ⟨true, freeze (runOps (beginCreate id initialCreator).1 ops), closedCreator, none⟩ := by
    simp [endCreate, hphase, hval]
  have hnames := runOps_property_order ops (beginCreate id initialCreator).1 hall hsucc
  have hc0a : (beginCreate id initialCreator).1.propertiesLayout = [] := rfl
  have hc0b : pendingOf (beginCreate id initialCreator).1.phase = none := rfl
  rw [hc0a, hc0b] at hnames
  simp only [List.map_nil, List.nil_append] at hnames
  have hc0c : (beginCreate id initialCreator).1.phase = CreatorPhase.collecting := rfl
  have hnodup : (layoutNamesWithPending (runOps (beginCreate id initialCreator).1 ops)).Nodup := by
    refine runOps_namesNodup ops _ hall ?_
    simp [layoutNamesWithPending, hc0a, hc0c]
  have hnodup2 : ((runOps (beginCreate id initialCreator).1 ops).propertiesLayout.map
      MaterialPropertyDescriptor.name).Nodup :=
    List.Nodup.of_append_left hnodup
  refine ⟨by rw [hend], ?_, ?_⟩
  · rw [hend]
    simpa [freeze] using hnames
  · intro i h
    simp only [hend, freeze] at h ⊢
    exact propertyIndex_getElem _ hnodup2 i h

/-! ### Concrete construction scenarios used as witnesses -/

/-- A per-material resource-binding layout exposing one input. -/
def demoLayout : ShaderResourceGroupLayout := ⟨["m_baseColor"]⟩

/-- A structurally different per-material resource-binding layout. -/
def demoLayout2 : ShaderResourceGroupLayout := ⟨["m_metallic"]⟩

/-- A shader exposing `demoLayout` and one shader option. -/
def demoShader : ShaderAsset := ⟨some demoLayout, ["o_debug"]⟩

/-- A shader exposing the conflicting `demoLayout2`. -/
def demoShader2 : ShaderAsset := ⟨some demoLayout2, []⟩

/-- A shader exposing no per-material binding group. -/
def demoShaderNoSrg : ShaderAsset := ⟨none, []⟩

/-- A Creator with a freshly opened session. -/
def demoCreator : Creator := (beginCreate 7 initialCreator).1

/-- A Creator that has cached `demoLayout` from `demoShader`. -/
def demoCachedCreator : Creator :=
  (addShader demoShader 0 "main" MaterialPipelineNameCommon demoCreator).1

/-- A session-local call sequence declaring and valuing one property. -/
def demoOps : List Op :=
  [ .addShader demoShader 0 "main" MaterialPipelineNameCommon
  , .beginMaterialProperty "baseColor" .colorType
  , .connectMaterialPropertyToShaderInput "m_baseColor"
  , .endMaterialProperty
  , .setPropertyValue "baseColor" (.colorValue 1 1 1 1) ]

/-- A whole-run sequence that adds the same shader tag twice. -/
def demoDupOps : List Op :=
  [ .beginCreate 7, .addShader demoShaderNoSrg 0 "main" MaterialPipelineNameCommon ]

/-- A Creator holding one completed color-typed property. -/
def demoPropCreator : Creator :=
  runOps (beginCreate 7 initialCreator).1
    [.beginMaterialProperty "baseColor" .colorType, .endMaterialProperty]

/-- A Creator with a dangling open bool-typed property session. -/
def demoBadCreator : Creator :=
  runOps (beginCreate 7 initialCreator).1 [.beginMaterialProperty "p" .boolType]

/-- A Creator with an open enum-typed property session. -/
def demoEnumCreator : Creator :=
  runOps (beginCreate 7 initialCreator).1 [.beginMaterialProperty "mode" .enumType]

/-! ### Witnesses -/

theorem addShader_srgLayout_consistency_witness :
    addShader demoShader2 0 "aux" MaterialPipelineNameCommon demoCachedCreator =
      (demoCachedCreator, some (CreatorError.layoutConflict "aux")) ∧
    (addShader demoShader 0 "aux2" MaterialPipelineNameCommon demoCachedCreator).2 = none ∧
    (addShader demoShader 0 "aux2" MaterialPipelineNameCommon
        demoCachedCreator).1.materialShaderResourceGroupLayout = some demoLayout ∧
    (runOps demoCreator [Op.addShader demoShaderNoSrg 0 "m" MaterialPipelineNameCommon,
        Op.endMaterialProperty]).materialShaderResourceGroupLayout = none ∧
    (endCreate demoCreator emptyAsset).success =
      (endCreate ({ demoCreator with materialShaderResourceGroupLayout := none })
        emptyAsset).success := by
  have h2 := addShader_srgLayout_consistency.2.1 demoCachedCreator demoShader 0 "aux2"
    MaterialPipelineNameCommon demoLayout (by decide) (by decide) (by decide) (by decide)
  refine ⟨?_, h2.1, h2.2, ?_, ?_⟩
  · exact addShader_srgLayout_consistency.1 demoCachedCreator demoShader2 0 "aux"
      MaterialPipelineNameCommon demoLayout2 demoLayout (by decide) (by decide) (by decide)
      (by decide) (by decide)
  · exact addShader_srgLayout_consistency.2.2.1
      [Op.addShader demoShaderNoSrg 0 "m" MaterialPipelineNameCommon, Op.endMaterialProperty]
      demoCreator (by decide) (by decide)
  · exact addShader_srgLayout_consistency.2.2.2 demoCreator emptyAsset

theorem endCreate_preserves_property_order_witness :
    (endCreate (runOps (beginCreate 7 initialCreator).1 demoOps) emptyAsset).success = true ∧
    (endCreate (runOps (beginCreate 7 initialCreator).1 demoOps) emptyAsset).result.propertiesLayout.map
        MaterialPropertyDescriptor.name = completedPropertyNames none demoOps ∧
    propertyIndex
        (endCreate (runOps (beginCreate 7 initialCreator).1 demoOps) emptyAsset).result.propertiesLayout
        "baseColor" = 0 := by
  have h := endCreate_preserves_property_order 7 demoOps emptyAsset
    (by decide) (by decide) (by decide) (by decide)
  exact ⟨h.1, h.2.1, by decide⟩

theorem addShader_duplicate_tag_fails_witness :
    tagUsed (runOps initialCreator demoDupOps).shaders "main" MaterialPipelineNameCommon = true ∧
    addShader demoShaderNoSrg 1 "main" MaterialPipelineNameCommon
        (runOps initialCreator demoDupOps) =
      (runOps initialCreator demoDupOps, some CreatorError.duplicateIdentifier) :=
  ⟨by decide,
   addShader_duplicate_tag_fails demoDupOps demoShaderNoSrg 1 "main"
     MaterialPipelineNameCommon (by decide)⟩

theorem setPropertyValue_trichotomy_witness :
    setPropertyValue "unknown" (MaterialPropertyValue.boolValue true) demoPropCreator =
      (demoPropCreator, some CreatorError.unknownReference) ∧
    setPropertyValue "baseColor" (MaterialPropertyValue.boolValue true) demoPropCreator =
      (demoPropCreator, some CreatorError.typeMismatch) ∧
    (setPropertyValue "baseColor" (MaterialPropertyValue.colorValue 1 1 1 1) demoPropCreator).2 =
      none ∧
    lookupAssoc
        (endCreate
          (setPropertyValue "baseColor" (MaterialPropertyValue.colorValue 1 1 1 1)
            demoPropCreator).1 emptyAsset).result.propertyValues "baseColor" =
      some (MaterialPropertyValue.colorValue 1 1 1 1) := by
  have h3 := (setPropertyValue_trichotomy demoPropCreator "baseColor"
      (MaterialPropertyValue.colorValue 1 1 1 1) (by decide)).2.2
    ⟨"baseColor", MaterialPropertyDataType.colorType, [], []⟩ (by decide) (by decide)
  refine ⟨?_, ?_, h3.1, h3.2 emptyAsset (by decide)⟩
  · exact (setPropertyValue_trichotomy demoPropCreator "unknown"
      (MaterialPropertyValue.boolValue true) (by decide)).1 (by decide)
  · exact (setPropertyValue_trichotomy demoPropCreator "baseColor"
      (MaterialPropertyValue.boolValue true) (by decide)).2.1
      ⟨"baseColor", MaterialPropertyDataType.colorType, [], []⟩ (by decide) (by decide)

theorem connect_calls_require_property_session_witness :
    connectMaterialPropertyToShaderInput "m_x" demoCreator =
      (demoCreator, some CreatorError.invalidSequence) ∧
    connectMaterialPropertyToShaderOptions "m_x" demoCreator =
      (demoCreator, some CreatorError.invalidSequence) ∧
    connectMaterialPropertyToShaderEnabled "m_x" demoCreator =
      (demoCreator, some CreatorError.invalidSequence) :=
  connect_calls_require_property_session demoCreator "m_x" (by decide)

theorem endCreate_atomicity_witness :
    (endCreate demoBadCreator emptyAsset).success = false ∧
    (endCreate demoBadCreator emptyAsset).result = emptyAsset ∧
    (endCreate demoBadCreator emptyAsset).creator = closedCreator ∧
    applyOp closedCreator Op.endMaterialProperty =
      (closedCreator, some CreatorError.invalidSequence) ∧
    (beginCreate 3 closedCreator).2 = none ∧
    (endCreate demoCreator emptyAsset).success = true ∧
    (endCreate demoCreator emptyAsset).result = freeze demoCreator := by
  have hbad := (endCreate_atomicity demoBadCreator emptyAsset (by decide)).1 (by decide)
  have hgood := (endCreate_atomicity demoCreator emptyAsset (by decide)).2 (by decide)
  exact ⟨by decide, hbad.1, hbad.2.1, hbad.2.2.1 Op.endMaterialProperty (by decide),
    hbad.2.2.2 3, by decide, hgood.1⟩

theorem claimShaderOptionOwnership_idempotent_witness :
    (claimShaderOptionOwnership "o_special" "FunctorA" demoCreator).2 = none ∧
    claimShaderOptionOwnership "o_special" "FunctorA"
        (claimShaderOptionOwnership "o_special" "FunctorA" demoCreator).1 =
      ((claimShaderOptionOwnership "o_special" "FunctorA" demoCreator).1, none) ∧
    claimShaderOptionOwnership "o_special" "FunctorB"
        (claimShaderOptionOwnership "o_special" "FunctorA" demoCreator).1 =
      ((claimShaderOptionOwnership "o_special" "FunctorA" demoCreator).1,
        some CreatorError.ownershipConflict) := by
  have h := claimShaderOptionOwnership_idempotent demoCreator "o_special" "FunctorA" "FunctorB"
    (by decide) (by decide)
  exact ⟨h.1, h.2.1, h.2.2 (by decide)⟩

theorem setMaterialPropertyEnumNames_spec_witness :
    setMaterialPropertyEnumNames ["A"] demoBadCreator =
      (demoBadCreator, some CreatorError.typeMismatch) ∧
    (setMaterialPropertyEnumNames ["A", "B"] demoEnumCreator).2 = none ∧
    (endMaterialProperty
        (setMaterialPropertyEnumNames ["A", "B"] demoEnumCreator).1).1.propertiesLayout =
      demoEnumCreator.propertiesLayout ++
        [⟨"mode", MaterialPropertyDataType.enumType, ["A", "B"], []⟩] := by
  have henum := (setMaterialPropertyEnumNames_spec demoEnumCreator
      ⟨"mode", MaterialPropertyDataType.enumType, [], []⟩ ["A", "B"] (by decide)).2 (by decide)
  refine ⟨?_, by rw [henum.1], henum.2⟩
  exact (setMaterialPropertyEnumNames_spec demoBadCreator
    ⟨"p", MaterialPropertyDataType.boolType, [], []⟩ ["A"] (by decide)).1 (by decide)

theorem introspection_window_witness :
    getMaterialPropertiesLayout initialCreator = none ∧
    getMaterialShaderResourceGroupLayout initialCreator = none ∧
    getMaterialPropertiesLayout demoCreator = some demoCreator.propertiesLayout := by
  have hout := (introspection_window initialCreator).1 (by decide)
  exact ⟨hout.1, hout.2, (introspection_window demoCreator).2.1 (by decide)⟩

theorem srgLayout_getter_caching_witness :
    getMaterialShaderResourceGroupLayout
        (runOps (beginCreate 7 initialCreator).1
          [Op.addShader demoShaderNoSrg 0 "m" MaterialPipelineNameCommon]) = none ∧
    getMaterialShaderResourceGroupLayout
        (runOps (addShader demoShader 0 "main" MaterialPipelineNameCommon demoCreator).1
          [Op.beginMaterialProperty "p" MaterialPropertyDataType.boolType]) = some demoLayout := by
  constructor
  · exact srgLayout_getter_caching.1 7
      [Op.addShader demoShaderNoSrg 0 "m" MaterialPipelineNameCommon] (by decide)
  · exact srgLayout_getter_caching.2 demoCreator demoShader 0 "main" MaterialPipelineNameCommon
      demoLayout (by decide) (by decide) (by decide)
      [Op.beginMaterialProperty "p" MaterialPropertyDataType.boolType] (by decide)
